import Mathlib

/-!
Shallow embedding of the VoiceDoc pipeline (src/main.py and src/app.py).

External services (the speech-recognition call, the LLM invocation, the HTTP
places request) and the floating-point math primitives are modelled as
explicit parameters: each embedded function takes the outcome of its external
call as an argument and computes exactly what the Python code computes from
that outcome. Machine floats are modelled as rationals so every definition
stays executable.
-/

namespace VoiceDoc

/-- A JSON value, restricted to the shapes the pipeline reads: the model
output's fields and the Rating column (which holds a number or a string). -/
inductive JVal
  | jnull
  | jstr (s : String)
  | jnum (q : ℚ)
  | jarr (xs : List JVal)

/-- `TriageResponse` (main.py lines 15-21), the pydantic model the output
parser validates against. `urgency` is declared as a plain `str` field:
pydantic checks only that the value is a string, not membership in the
enumeration named by the field's description. `self_care_tips` and
`recommended_tests` are `Optional[List[str]]`. -/
structure TriageResponse where
  urgency : String
  possible_causes : List String
  suggested_specialty : String
  self_care_tips : Option (List String)
  recommended_tests : Option (List String)
  explanation : String
  deriving DecidableEq

/-- The three-value urgency enumeration named by the schema description
(main.py line 16). -/
def urgencyInEnum (s : String) : Bool :=
  s == "Emergency" || s == "Urgent" || s == "Routine"

/-- Python dict lookup on a decoded JSON object (first binding wins). -/
def lookupField (fields : List (String × JVal)) (k : String) : Option JVal :=
  (fields.find? (fun p => p.1 == k)).map (fun p => p.2)

/-- Pydantic validation of a JSON value against `str`. -/
def asStr : JVal → Option String
  | .jstr s => some s
  | _ => none

/-- Pydantic validation of a JSON value against `List[str]`. -/
def asStrList : JVal → Option (List String)
  | .jarr xs => xs.mapM asStr
  | _ => none

/-- Pydantic validation of a required `str` field. -/
def requireStr (fields : List (String × JVal)) (k : String) : Except String String :=
  match lookupField fields k with
  | some v =>
    match asStr v with
    | some s => .ok s
    | none => .error ("field " ++ k ++ " is not a string")
  | none => .error ("field " ++ k ++ " missing")

/-- Pydantic validation of a required `List[str]` field. -/
def requireStrList (fields : List (String × JVal)) (k : String) :
    Except String (List String) :=
  match lookupField fields k with
  | some v =>
    match asStrList v with
    | some xs => .ok xs
    | none => .error ("field " ++ k ++ " is not a list of strings")
  | none => .error ("field " ++ k ++ " missing")

/-- Pydantic validation of an `Optional[List[str]]` field: a missing key or
an explicit null yields `none`; an array of strings yields the list; any
other value is a validation error. -/
def optStrList (fields : List (String × JVal)) (k : String) :
    Except String (Option (List String)) :=
  match lookupField fields k with
  | none => .ok none
  | some .jnull => .ok none
  | some v =>
    match asStrList v with
    | some xs => .ok (some xs)
    | none => .error ("field " ++ k ++ " is not null or a list of strings")

/-- The structural validation `PydanticOutputParser(pydantic_object=TriageResponse)`
performs on a decoded JSON object (main.py line 29): each required field must
be present with the declared type; `urgency` is only required to be a string. -/
def parseTriageResponse (fields : List (String × JVal)) : Except String TriageResponse := do
  let urgency ← requireStr fields "urgency"
  let causes ← requireStrList fields "possible_causes"
  let specialty ← requireStr fields "suggested_specialty"
  let tips ← optStrList fields "self_care_tips"
  let tests ← optStrList fields "recommended_tests"
  let expl ← requireStr fields "explanation"
  return { urgency := urgency, possible_causes := causes,
           suggested_specialty := specialty, self_care_tips := tips,
           recommended_tests := tests, explanation := expl }

/-- Outcome of the single chain invocation in `get_ai_triage_analysis`
(main.py line 47): the LLM call itself raises, the returned text is not a
JSON object (the parser raises while decoding), or a JSON object is decoded
and handed to the pydantic validation above. -/
inductive LlmOutcome
  | serviceFailure (detail : String)
  | notJsonObject (detail : String)
  | jsonObject (fields : List (String × JVal))

/-- `get_ai_triage_analysis` (main.py lines 32-49): returns the parsed
`TriageResponse` on success; every exception raised inside the chain is
caught and converted to the value `"Error processing AI response: " ++ e`,
returned in the right summand (a string, not a raised exception). -/
def get_ai_triage_analysis : LlmOutcome → TriageResponse ⊕ String
  | .serviceFailure e => .inr ("Error processing AI response: " ++ e)
  | .notJsonObject e => .inr ("Error processing AI response: " ++ e)
  | .jsonObject fields =>
    match parseTriageResponse fields with
    | .ok r => .inl r
    | .error e => .inr ("Error processing AI response: " ++ e)

/-- Outcome of the `recognize_google` call inside `transcribe_audio`:
success with the recognized text, `sr.UnknownValueError`, or
`sr.RequestError`. -/
inductive RecognizeOutcome
  | success (text : String)
  | unknownValue
  | requestFailed

/-- `transcribe_audio` (main.py lines 51-61): returns the recognized text, or
one of the two in-band "Error: ..." sentinel strings on failure. -/
def transcribe_audio : RecognizeOutcome → String
  | .success t => t
  | .unknownValue => "Error: Could not understand the audio."
  | .requestFailed => "Error: API request failed. Check internet."

/-- Whether `pat` begins `s` (character lists). -/
def startsWithChars : List Char → List Char → Bool
  | [], _ => true
  | _ :: _, [] => false
  | p :: ps, c :: cs => p == c && startsWithChars ps cs

/-- Whether `pat` occurs as a contiguous run inside `s` (character lists). -/
def hasSubstrChars (pat : List Char) : List Char → Bool
  | [] => startsWithChars pat []
  | c :: cs => startsWithChars pat (c :: cs) || hasSubstrChars pat cs

/-- Python's `pat in s` on strings: substring containment. -/
def pyIn (pat s : String) : Bool := hasSubstrChars pat.toList s.toList

/-- Result of the analyze-button flow in app.py: the status shown to the
user, carrying the message or the completed analysis. -/
inductive AnalysisFlowResult
  | transcriptionFailed (shown : String)
  | analysisFailed (shown : String)
  | complete (r : TriageResponse)
  deriving DecidableEq

/-- The analyze-button flow of app.py lines 84-99: transcribe the audio,
test the transcript with `"Error:" in transcribed_text`, and only in the
non-error branch invoke `get_ai_triage_analysis`. The LLM is modelled as a
function from the transcript it would be invoked on to its outcome, so the
error branch provably never consults it. -/
def streamlitAnalysisFlow (rec : RecognizeOutcome) (llm : String → LlmOutcome) :
    AnalysisFlowResult :=
  let transcribed_text := transcribe_audio rec
  if pyIn "Error:" transcribed_text then .transcriptionFailed transcribed_text
  else
    match get_ai_triage_analysis (llm transcribed_text) with
    | .inl r => .complete r
    | .inr e => .analysisFailed e

/-- Abstract model of the floating-point math primitives main.py imports
from Python's math module (`radians`, `sin`, `cos`, `asin`, `sqrt`); the
embedding is parametric in their interpretation, so every theorem about the
place pipeline holds for any interpretation of the primitives. -/
structure MathOps where
  radians : ℚ → ℚ
  sin : ℚ → ℚ
  cos : ℚ → ℚ
  asin : ℚ → ℚ
  sqrt : ℚ → ℚ

/-- One entry of `data['results']` as read by main.py lines 82-95. `lat` and
`lng` model `geometry.location.lat` / `geometry.location.lng`; they are
`none` when the field (or any enclosing level) is missing, in which case the
code defaults them to 0. -/
structure Candidate where
  name : Option String
  vicinity : Option String
  rating : Option ℚ
  lat : Option ℚ
  lng : Option ℚ
  deriving DecidableEq

/-- Value of the Rating column: a number, or the string sentinel used when
the candidate carries no rating. -/
inductive CellVal
  | num (q : ℚ)
  | str (s : String)
  deriving DecidableEq

/-- One row of the result DataFrame (main.py lines 90-95); the fields model
the columns "Name", "Address", "Rating" and "Distance (km)". -/
structure PlaceRow where
  name : String
  address : String
  rating : CellVal
  distKm : ℚ
  deriving DecidableEq

/-- The haversine distance exactly as inlined in main.py lines 85-88: all
four input angles pass through `radians`, then
`a = sin(dLat/2)^2 + cos(lat1)*cos(lat2)*sin(dLon/2)^2` and
`dist = 2*R*asin(sqrt(a))` with `R = 6371`. -/
def haversineKm (m : MathOps) (lat1d lon1d lat2d lon2d : ℚ) : ℚ :=
  let lat1 := m.radians lat1d
  let lon1 := m.radians lon1d
  let lat2 := m.radians lat2d
  let lon2 := m.radians lon2d
  let dLat := lat2 - lat1
  let dLon := lon2 - lon1
  let a := m.sin (dLat / 2) ^ 2 + m.cos lat1 * m.cos lat2 * m.sin (dLon / 2) ^ 2
  2 * 6371 * m.asin (m.sqrt a)

/-- The row appended for one candidate (main.py lines 83-95): name, vicinity
and rating default to the 'N/A' sentinel when missing, the candidate
coordinates default to 0, and the distance is the inlined haversine from the
query point. -/
def placeRowOf (m : MathOps) (latitude longitude : ℚ) (place : Candidate) : PlaceRow :=
  { name := place.name.getD "N/A"
    address := place.vicinity.getD "N/A"
    rating := match place.rating with
      | some q => .num q
      | none => .str "N/A"
    distKm := haversineKm m latitude longitude (place.lat.getD 0) (place.lng.getD 0) }

/-- Ordering of rows by the "Distance (km)" column. -/
def rowLE (a b : PlaceRow) : Prop := a.distKm ≤ b.distKm

instance : DecidableRel rowLE :=
  fun a b => inferInstanceAs (Decidable (a.distKm ≤ b.distKm))

instance : IsTotal PlaceRow rowLE := ⟨fun a b => le_total a.distKm b.distKm⟩

instance : IsTrans PlaceRow rowLE := ⟨fun _ _ _ h1 h2 => le_trans h1 h2⟩

/-- `pd.DataFrame(places).sort_values('Distance (km)')` (main.py line 98).
The call uses the default sort kind, whose documented contract is only that
the output is ascending in the sorted column and a permutation of the rows;
that kind is not a stable sort. The embedding instantiates the call with one
concrete sort satisfying that contract; no theorem below relies on more than
the documented contract (in particular none relies on tie order). -/
def sortValuesByDist (rows : List PlaceRow) : List PlaceRow :=
  List.insertionSort rowLE rows

/-- A second sort satisfying the same documented `sort_values` contract
(output ascending in the distance column, a permutation of the rows): it
emits rows of equal distance in reversed input order. It witnesses that the
contract of the default sort kind does not determine tie order. -/
def antiStableSortValues (rows : List PlaceRow) : List PlaceRow :=
  sortValuesByDist rows.reverse

/-- Outcome of the HTTP request and body decode in main.py lines 76-78:
`requests.get` / `raise_for_status` raising a `RequestException`; any other
exception raised while decoding or traversing the body; or a decoded body
whose results list is as given (a missing or empty `results` key both yield
no candidates and are modelled as the empty list). -/
inductive RequestOutcome
  | requestException (detail : String)
  | parseFailure (detail : String)
  | ok (results : List Candidate)

/-- A normal return value of `find_nearby_places_google`: a DataFrame (list
of rows, the empty list being the empty DataFrame) or an error string
returned as a value. -/
inductive FindNearbyResult
  | frame (rows : List PlaceRow)
  | errorString (msg : String)
  deriving DecidableEq

/-- `find_nearby_places_google` (main.py lines 63-103). `Except.error`
models an exception escaping the function (only the `ValueError` raised for
the missing key, which no handler covers); `Except.ok` models a normal
return. Request failures and body-decoding failures are caught and returned
as error strings; candidates are turned into rows and sorted by distance. -/
def find_nearby_places_google (m : MathOps) (GOOGLE_MAPS_API_KEY : Option String)
    (latitude longitude : ℚ) (query : String) (radius : ℚ)
    (outcome : RequestOutcome) : Except String FindNearbyResult :=
  match GOOGLE_MAPS_API_KEY with
  | none => .error "GOOGLE_MAPS_API_KEY not found!"
  | some _ =>
    match outcome with
    | .requestException e =>
      .ok (.errorString ("Error connecting to Google Maps API: " ++ e))
    | .parseFailure e =>
      .ok (.errorString ("An error occurred while parsing Google Maps data: " ++ e))
    | .ok results =>
      let places := results.map (placeRowOf m latitude longitude)
      if places.isEmpty then .ok (.frame [])
      else .ok (.frame (sortValuesByDist places))

/-- The two credentials read from the environment when main.py is imported
(lines 12-13); `none` models an unset (or empty, hence falsy) variable. -/
structure Config where
  GOOGLE_API_KEY : Option String
  GOOGLE_MAPS_API_KEY : Option String

/-- `load_ai_model` (main.py lines 23-30): raises a `ValueError` when the
Gemini key is absent, otherwise builds and returns the model handle (whose
contents are irrelevant here). -/
def load_ai_model (cfg : Config) : Except String Unit :=
  match cfg.GOOGLE_API_KEY with
  | none => .error "GOOGLE_API_KEY for Gemini not found!"
  | some _ => .ok ()

/-- The startup gate of app.py lines 33-37: `load_ai_model` runs inside
try/except; on `ValueError` the app shows the error and stops before any
request is accepted. `true` means the app goes on to accept requests. -/
def appStartup (cfg : Config) : Bool :=
  match load_ai_model cfg with
  | .ok _ => true
  | .error _ => false

/-- The `find_nearby_places_google` calls made by app.py (lines 110 and
142): they pass the process-wide maps key and the default radius 10000. -/
def findNearbyApp (cfg : Config) (m : MathOps) (latitude longitude : ℚ)
    (query : String) (outcome : RequestOutcome) : Except String FindNearbyResult :=
  find_nearby_places_google m cfg.GOOGLE_MAPS_API_KEY latitude longitude query 10000 outcome

/-- Identity interpretation of the math primitives, used for concrete
evaluations. -/
def mOps : MathOps := ⟨id, id, id, id, id⟩

/-- A concrete candidate with every field present. -/
def candA : Candidate :=
  { name := some "City Hospital", vicinity := some "Main Road"
    rating := some 4, lat := some 28, lng := some 77 }

/-- A concrete candidate at the same coordinates as `candTieB`, so the two
rows tie in distance from any query point; the names differ. -/
def candTieA : Candidate :=
  { name := some "Alpha Clinic", vicinity := some "North Road"
    rating := some 4, lat := some 1, lng := some 2 }

/-- The second candidate of the concrete tie pair. -/
def candTieB : Candidate :=
  { name := some "Beta Clinic", vicinity := some "South Road"
    rating := some 5, lat := some 1, lng := some 2 }

/-- A concrete candidate whose rating field is missing. -/
def candNoRating : Candidate :=
  { name := some "City Clinic", vicinity := some "Main Road"
    rating := none, lat := some 1, lng := some 2 }

/-- A concrete candidate whose geometry/location is missing entirely. -/
def candNoGeo : Candidate :=
  { name := some "Roadside Clinic", vicinity := none
    rating := some 3, lat := none, lng := none }

/-- A concrete decoded model output that conforms to the schema except that
its urgency string is outside {Emergency, Urgent, Routine}. -/
def c1Fields : List (String × JVal) :=
  [ ("urgency", .jstr "Catastrophic"),
    ("possible_causes", .jarr [.jstr "Muscle strain", .jstr "Anxiety"]),
    ("suggested_specialty", .jstr "General Physician"),
    ("self_care_tips", .jnull),
    ("recommended_tests", .jnull),
    ("explanation", .jstr "Assessment rationale.") ]

/-- Claim C1 (code bug): a model output whose urgency string is outside
{Emergency, Urgent, Routine}, the rest conforming to the schema, is parsed
SUCCESSFULLY by `get_ai_triage_analysis` and returned as a triage result —
the pydantic model declares `urgency` as a plain `str` with no enum
membership validation — instead of the claimed SchemaViolation error. -/
theorem c1_out_of_enum_urgency_accepted :
    get_ai_triage_analysis (.jsonObject c1Fields)
      = .inl { urgency := "Catastrophic",
               possible_causes := ["Muscle strain", "Anxiety"],
               suggested_specialty := "General Physician",
               self_care_tips := none,
               recommended_tests := none,
               explanation := "Assessment rationale." }
    ∧ urgencyInEnum "Catastrophic" = false :=
  ⟨rfl, rfl⟩

/-- Claim C2 (code bug): the sort at main.py line 98 uses the default
`sort_values` kind, which pandas documents as not stable — its contract
guarantees only an output ascending in the distance column that is a
permutation of the rows. This theorem shows that contract does not entail
the claimed tie order: `antiStableSortValues` satisfies it for every row
list, yet on a concrete pair of distinct equal-distance candidate rows it
emits them in the reverse of their API order. The claim (and spec section
4.3) require a stable sort, so the code's choice of kind is the slip. -/
theorem c2_default_kind_allows_tie_reordering :
    (∀ l : List PlaceRow, List.Sorted rowLE (antiStableSortValues l)
        ∧ List.Perm (antiStableSortValues l) l)
    ∧ (placeRowOf mOps 5 6 candTieA).distKm = (placeRowOf mOps 5 6 candTieB).distKm
    ∧ placeRowOf mOps 5 6 candTieA ≠ placeRowOf mOps 5 6 candTieB
    ∧ antiStableSortValues [placeRowOf mOps 5 6 candTieA, placeRowOf mOps 5 6 candTieB]
        = [placeRowOf mOps 5 6 candTieB, placeRowOf mOps 5 6 candTieA] := by
  refine ⟨fun l => ⟨List.sorted_insertionSort rowLE _,
    (List.perm_insertionSort rowLE _).trans l.reverse_perm⟩, rfl, ?_, ?_⟩
  · intro h
    exact absurd (congrArg PlaceRow.name h) (by decide)
  · have hxy : rowLE (placeRowOf mOps 5 6 candTieB) (placeRowOf mOps 5 6 candTieA) :=
      le_refl (placeRowOf mOps 5 6 candTieB).distKm
    show List.orderedInsert rowLE (placeRowOf mOps 5 6 candTieB)
        (List.orderedInsert rowLE (placeRowOf mOps 5 6 candTieA) [])
      = [placeRowOf mOps 5 6 candTieB, placeRowOf mOps 5 6 candTieA]
    rw [List.orderedInsert_nil, List.orderedInsert_of_le rowLE [] hxy]

/-- Claim C3: with the maps key present, a network/HTTP failure or a
malformed response body makes `find_nearby_places_google` RETURN an error
string carrying the underlying cause — a normal return value
(`Except.ok`), never an exception escaping to the caller. -/
theorem c3_failures_become_error_values (m : MathOps) (k : String)
    (lat lon : ℚ) (query : String) (radius : ℚ) (e : String) :
    find_nearby_places_google m (some k) lat lon query radius (.requestException e)
      = .ok (.errorString ("Error connecting to Google Maps API: " ++ e))
    ∧ find_nearby_places_google m (some k) lat lon query radius (.parseFailure e)
      = .ok (.errorString ("An error occurred while parsing Google Maps data: " ++ e)) :=
  ⟨rfl, rfl⟩

/-- Claim C4 counterexample: with the LLM key present and the maps key
ABSENT, startup succeeds — the app accepts requests with no configuration
error reported — and the missing credential surfaces only when
`find_nearby_places_google` is called, as an exception raised out of it. -/
theorem c4_maps_key_missing_not_fatal_at_startup :
    appStartup { GOOGLE_API_KEY := some "gemini-key", GOOGLE_MAPS_API_KEY := none } = true
    ∧ findNearbyApp { GOOGLE_API_KEY := some "gemini-key", GOOGLE_MAPS_API_KEY := none }
        mOps 1 2 "hospital emergency" (.ok [])
        = .error "GOOGLE_MAPS_API_KEY not found!" :=
  ⟨rfl, rfl⟩

/-- Claim C4 amended: only the LLM credential is checked at startup — its
absence halts the app before any request is accepted; the places credential
is not checked at startup, and its absence is detected only inside
`find_nearby_places_google`, which then raises at call time. -/
theorem c4_startup_checks_only_llm_key (cfg : Config) (m : MathOps)
    (lat lon : ℚ) (query : String) (outcome : RequestOutcome) :
    (cfg.GOOGLE_API_KEY = none → appStartup cfg = false)
    ∧ (cfg.GOOGLE_MAPS_API_KEY = none →
        findNearbyApp cfg m lat lon query outcome
          = .error "GOOGLE_MAPS_API_KEY not found!") := by
  constructor
  · intro h
    unfold appStartup load_ai_model
    rw [h]
  · intro h
    unfold findNearbyApp find_nearby_places_google
    rw [h]

/-- Witness for the amended C4 at concrete configurations. -/
theorem c4_startup_checks_only_llm_key_witness :
    (({ GOOGLE_API_KEY := none, GOOGLE_MAPS_API_KEY := some "maps-key" } : Config).GOOGLE_API_KEY = none
      ∧ appStartup { GOOGLE_API_KEY := none, GOOGLE_MAPS_API_KEY := some "maps-key" } = false)
    ∧ (({ GOOGLE_API_KEY := some "gemini-key", GOOGLE_MAPS_API_KEY := none } : Config).GOOGLE_MAPS_API_KEY = none
      ∧ findNearbyApp { GOOGLE_API_KEY := some "gemini-key", GOOGLE_MAPS_API_KEY := none }
          mOps 1 2 "clinic" (.ok []) = .error "GOOGLE_MAPS_API_KEY not found!") :=
  ⟨⟨rfl, (c4_startup_checks_only_llm_key
      { GOOGLE_API_KEY := none, GOOGLE_MAPS_API_KEY := some "maps-key" }
      mOps 1 2 "clinic" (.ok [])).1 rfl⟩,
   ⟨rfl, (c4_startup_checks_only_llm_key
      { GOOGLE_API_KEY := some "gemini-key", GOOGLE_MAPS_API_KEY := none }
      mOps 1 2 "clinic" (.ok [])).2 rfl⟩⟩

/-- Claim C5: with the maps key present, a response reporting zero
candidates yields a normal return of the empty DataFrame — a success value,
not an error string and not an exception. -/
theorem c5_zero_results_empty_frame (m : MathOps) (k : String)
    (lat lon : ℚ) (query : String) (radius : ℚ) :
    find_nearby_places_google m (some k) lat lon query radius (.ok [])
      = .ok (.frame []) :=
  rfl

/-- Claim C6: when the recognizer reports unintelligible audio,
`transcribe_audio` returns the in-band Unintelligible sentinel, and the
analyze flow stops at the transcription-failed branch for EVERY possible
LLM — the analysis stage is never invoked in that run. -/
theorem c6_unintelligible_never_analyzed (llm : String → LlmOutcome) :
    transcribe_audio .unknownValue = "Error: Could not understand the audio."
    ∧ streamlitAnalysisFlow .unknownValue llm
        = .transcriptionFailed "Error: Could not understand the audio." :=
  ⟨rfl, rfl⟩

/-- Claim C7: for a candidate whose coordinates are present, the distance
attached to its row is the haversine value of the code: all four degree
angles pass through `radians`, then
a = sin(dLat/2)^2 + cos(lat1)*cos(lat2)*sin(dLon/2)^2 and the distance is
2*6371*asin(sqrt a). -/
theorem c7_distance_is_haversine (m : MathOps) (lat lon : ℚ) (c : Candidate)
    (cla clo : ℚ) (hla : c.lat = some cla) (hlo : c.lng = some clo) :
    (placeRowOf m lat lon c).distKm
      = 2 * 6371 * m.asin (m.sqrt
          (m.sin ((m.radians cla - m.radians lat) / 2) ^ 2
            + m.cos (m.radians lat) * m.cos (m.radians cla)
              * m.sin ((m.radians clo - m.radians lon) / 2) ^ 2)) := by
  unfold placeRowOf haversineKm
  rw [hla, hlo]
  rfl

/-- Witness for C7 at a concrete candidate and interpretation. -/
theorem c7_distance_is_haversine_witness :
    candA.lat = some 28 ∧ candA.lng = some 77
    ∧ (placeRowOf mOps 1 2 candA).distKm
        = 2 * 6371 * mOps.asin (mOps.sqrt
            (mOps.sin ((mOps.radians 28 - mOps.radians 1) / 2) ^ 2
              + mOps.cos (mOps.radians 1) * mOps.cos (mOps.radians 28)
                * mOps.sin ((mOps.radians 77 - mOps.radians 2) / 2) ^ 2)) :=
  ⟨rfl, rfl, c7_distance_is_haversine mOps 1 2 candA 28 77 rfl rfl⟩

/-- Claim C8 counterexample: a candidate lacking a rating still yields a row
and the call succeeds, but the Rating cell holds the sentinel string 'N/A',
not the claimed sentinel "unknown". -/
theorem c8_sentinel_is_na :
    find_nearby_places_google mOps (some "mapskey") 1 2 "clinic" 10000 (.ok [candNoRating])
      = .ok (.frame [placeRowOf mOps 1 2 candNoRating])
    ∧ (placeRowOf mOps 1 2 candNoRating).rating = .str "N/A"
    ∧ (placeRowOf mOps 1 2 candNoRating).rating ≠ .str "unknown" :=
  ⟨rfl, rfl, by decide⟩

/-- Claim C8 amended: every candidate lacking a rating still produces a row
— the call succeeds, no record is dropped (the frame has one row per
candidate and contains this candidate's row) — with the rating defaulted to
the sentinel string 'N/A'. -/
theorem c8_missing_rating_kept_with_na (m : MathOps) (k : String)
    (lat lon : ℚ) (query : String) (radius : ℚ) (l : List Candidate)
    (c : Candidate) (hc : c ∈ l) (hr : c.rating = none) :
    (placeRowOf m lat lon c).rating = .str "N/A"
    ∧ ∃ rows, find_nearby_places_google m (some k) lat lon query radius (.ok l)
          = .ok (.frame rows)
        ∧ rows.length = l.length
        ∧ placeRowOf m lat lon c ∈ rows := by
  constructor
  · unfold placeRowOf
    rw [hr]
  · refine ⟨sortValuesByDist (l.map (placeRowOf m lat lon)), ?_, ?_, ?_⟩
    · have hne2 : (l.map (placeRowOf m lat lon)).isEmpty = false := by
        cases l with
        | nil => cases hc
        | cons a t => rfl
      unfold find_nearby_places_google
      simp [hne2]
    · unfold sortValuesByDist
      rw [List.length_insertionSort, List.length_map]
    · unfold sortValuesByDist
      rw [List.mem_insertionSort]
      exact List.mem_map_of_mem _ hc

/-- Witness for the amended C8 at a concrete rating-less candidate. -/
theorem c8_missing_rating_kept_with_na_witness :
    candNoRating ∈ ([candNoRating] : List Candidate)
    ∧ candNoRating.rating = none
    ∧ ((placeRowOf mOps 1 2 candNoRating).rating = .str "N/A"
      ∧ ∃ rows, find_nearby_places_google mOps (some "mapskey") 1 2 "clinic" 10000
            (.ok [candNoRating]) = .ok (.frame rows)
          ∧ rows.length = ([candNoRating] : List Candidate).length
          ∧ placeRowOf mOps 1 2 candNoRating ∈ rows) :=
  ⟨List.mem_singleton_self _, rfl,
    c8_missing_rating_kept_with_na mOps "mapskey" 1 2 "clinic" 10000 [candNoRating]
      candNoRating (List.mem_singleton_self _) rfl⟩

/-- Claim C9: a candidate with no geometry/location coordinates is still
emitted as a row rather than skipped or reported as an error; its latitude
and longitude default to 0, so its distance is the haversine distance from
the query point to (0, 0). -/
theorem c9_missing_coords_default_zero (m : MathOps) (k : String)
    (lat lon : ℚ) (query : String) (radius : ℚ) (l : List Candidate)
    (c : Candidate) (hc : c ∈ l) (hla : c.lat = none) (hlo : c.lng = none) :
    (placeRowOf m lat lon c).distKm = haversineKm m lat lon 0 0
    ∧ ∃ rows, find_nearby_places_google m (some k) lat lon query radius (.ok l)
          = .ok (.frame rows)
        ∧ placeRowOf m lat lon c ∈ rows := by
  constructor
  · unfold placeRowOf
    rw [hla, hlo]
    rfl
  · refine ⟨sortValuesByDist (l.map (placeRowOf m lat lon)), ?_, ?_⟩
    · have hne2 : (l.map (placeRowOf m lat lon)).isEmpty = false := by
        cases l with
        | nil => cases hc
        | cons a t => rfl
      unfold find_nearby_places_google
      simp [hne2]
    · unfold sortValuesByDist
      rw [List.mem_insertionSort]
      exact List.mem_map_of_mem _ hc

/-- Witness for C9 at a concrete geometry-less candidate. -/
theorem c9_missing_coords_default_zero_witness :
    candNoGeo ∈ ([candNoGeo] : List Candidate)
    ∧ candNoGeo.lat = none ∧ candNoGeo.lng = none
    ∧ ((placeRowOf mOps 3 4 candNoGeo).distKm = haversineKm mOps 3 4 0 0
      ∧ ∃ rows, find_nearby_places_google mOps (some "mapskey") 3 4 "clinic" 10000
            (.ok [candNoGeo]) = .ok (.frame rows)
          ∧ placeRowOf mOps 3 4 candNoGeo ∈ rows) :=
  ⟨List.mem_singleton_self _, rfl, rfl,
    c9_missing_coords_default_zero mOps "mapskey" 3 4 "clinic" 10000 [candNoGeo]
      candNoGeo (List.mem_singleton_self _) rfl rfl⟩

/-- Claim C10: any transcription attempt whose returned text contains the
substring "Error:" — including a genuinely successful transcript that
happens to contain it — is classified as a transcription failure by the
flow's substring test, and the analysis stage is never invoked, for every
possible LLM. -/
theorem c10_inband_sentinel_blocks_analysis (t : String)
    (h : pyIn "Error:" t = true) (llm : String → LlmOutcome) :
    streamlitAnalysisFlow (.success t) llm = .transcriptionFailed t := by
  simp [streamlitAnalysisFlow, transcribe_audio, h]

/-- Witness for C10: a genuine transcript that merely mentions "Error:" is
still routed to the transcription-failed branch. -/
theorem c10_inband_sentinel_blocks_analysis_witness :
    pyIn "Error:" "The display read Error: 500 all day" = true
    ∧ streamlitAnalysisFlow (.success "The display read Error: 500 all day")
        (fun _ => .serviceFailure "offline")
        = .transcriptionFailed "The display read Error: 500 all day" :=
  ⟨by decide, c10_inband_sentinel_blocks_analysis _ (by decide) _⟩

end VoiceDoc
